import Mathlib

/-!
Shallow embedding of the EC2 resource-lifecycle scheduler and state poller of
`src/aws/ec2.py` (class `EC2Manager`) together with the relevant configuration
defaults of `src/config.py`.

Modelling conventions:
  * Python dicts are association lists (`List (String × α)`); the configured
    instance maps are assumed duplicate-key free, as produced by `_load_config`.
  * The external AWS calls are modelled by their observable behaviour:
    `describe_instances`-based existence is a membership test in a caller-supplied
    list of existing instance ids, `start_instances` / `stop_instances` are
    fire-and-forget acknowledgements recorded by a Boolean "external call issued"
    flag, and `get_instance_state` inside the polling loop is a caller-supplied
    sequence of `(success, state)` query results.
  * APScheduler's job store is a list of jobs keyed by string id;
    `remove_job` fails (raises `JobLookupError`) exactly when no job with the
    given id exists, and `add_job` with `replace_existing=True` first drops any
    job with the same id.  Job ids are unique in every state produced by the
    operations themselves.
  * Wall-clock timestamps (`datetime.now()` and the retention arithmetic) are
    abstract `Nat` instants measured in days, passed in as `now`.
  * In `wait_for_state`, elapsed wall time advances only through the loop's
    `asyncio.sleep(5)` calls (queries are idealised as instantaneous), so the
    elapsed seconds at the n-th iteration are `5 * n`.  The loop is written with
    an explicit fuel parameter strictly larger than the greatest possible number
    of iterations, so the fuel-exhaustion branch (which mirrors the loop-exit
    timeout result) is unreachable and the definition computes by `rfl`.
  * Python `int()` accepts an optional sign and surrounding whitespace before a
    digit string (underscore separators and non-ASCII digits are not modelled;
    no input considered here contains them), and `str.split(':')` on an empty
    string yields `[""]`.
-/

/-- Python `str.isspace` characters relevant to `int()` stripping. -/
def isPySpace (c : Char) : Bool :=
  c == ' ' || c == '\t' || c == '\n' || c == '\r' || c == '\x0b' || c == '\x0c'

/-- Strip leading and trailing whitespace, as Python `int()` does. -/
def stripChars (cs : List Char) : List Char :=
  ((cs.dropWhile isPySpace).reverse.dropWhile isPySpace).reverse

/-- Numeric value of a (non-empty, all-digit) character list. -/
def digitsVal (cs : List Char) : Int :=
  cs.foldl (fun a c => a * 10 + ((c.toNat : Int) - 48)) 0

/-- Python `int(s)`: optional surrounding whitespace, optional sign, digits;
`none` models the `ValueError` raise. -/
def pyInt (s : String) : Option Int :=
  match stripChars s.data with
  | [] => none
  | '+' :: rest => if rest ≠ [] ∧ rest.all Char.isDigit then some (digitsVal rest) else none
  | '-' :: rest => if rest ≠ [] ∧ rest.all Char.isDigit then some (-(digitsVal rest)) else none
  | cs => if cs.all Char.isDigit then some (digitsVal cs) else none

/-- Python `str.split(sep)` for a one-character separator: `"".split(':') = [""]`. -/
def splitOnChar (sep : Char) : List Char → List (List Char)
  | [] => [[]]
  | c :: rest =>
    match splitOnChar sep rest with
    | [] => [[]]
    | h :: t => if c == sep then [] :: h :: t else (c :: h) :: t

/-- `hour, minute = map(int, s.split(':'))` from `add_schedule`: `none` models the
`ValueError` raised either by unpacking a list whose length is not 2 or by `int()`. -/
def parseHM (s : String) : Option (Int × Int) :=
  match splitOnChar ':' s.data with
  | [a, b] =>
    match pyInt ⟨a⟩, pyInt ⟨b⟩ with
    | some h, some m => some (h, m)
    | _, _ => none
  | _ => none

/-- Python `x or d` for `x : Optional[str]`: `None` and `""` are falsy, any other
string is returned unchanged.  This is the defaulting on lines 251-252 of
`ec2.py` (`start_time = start_time or self.default_start_time`). -/
def orDefault (x : Option String) (d : String) : String :=
  match x with
  | none => d
  | some s => if s = "" then d else s

/-- Python dict lookup on an association list (first matching key). -/
def dictLookup {α : Type} (l : List (String × α)) (k : String) : Option α :=
  (l.find? (fun p => p.1 == k)).map (·.2)

/-- Python dict assignment `d[k] = v`: replace in place if the key is present,
append at the end otherwise. -/
def dictInsert {α : Type} (l : List (String × α)) (k : String) (v : α) :
    List (String × α) :=
  match l with
  | [] => [(k, v)]
  | p :: rest => if p.1 == k then (k, v) :: rest else p :: dictInsert rest k v

/-- Python `del d[k]` (the callers below only erase keys they have checked). -/
def dictErase {α : Type} (l : List (String × α)) (k : String) : List (String × α) :=
  l.filter (fun p => p.1 != k)

/-- Python `{**a, **b}`: keys of `a` in order (with `b`'s value when the key is
also in `b`), then the keys only in `b`. -/
def dictMerge (a b : List (String × String)) : List (String × String) :=
  a.map (fun p =>
    match dictLookup b p.1 with
    | some v => (p.1, v)
    | none => p) ++ b.filter (fun q => (dictLookup a q.1).isNone)

/-- The configuration loaded by `EC2Manager._load_config` (ec2.py lines 56-85). -/
structure EC2Config where
  timezone : String
  schedule_check_interval : Nat
  max_schedules_per_instance : Nat
  schedule_retention_days : Nat
  default_start_time : String
  default_stop_time : String
  full_control_instances : List (String × String)
  metrics_only_instances : List (String × String)
deriving DecidableEq, Repr

/-- `_load_config` with all scalar environment variables unset: the defaults
`TIMEZONE='Asia/Ho_Chi_Minh'`, `SCHEDULE_CHECK_INTERVAL=60`,
`MAX_SCHEDULES_PER_INSTANCE=1`, `SCHEDULE_RETENTION_DAYS=30`,
`DEFAULT_START_TIME='09:00'`, `DEFAULT_STOP_TIME='18:00'`. -/
def load_config_defaults (full metrics : List (String × String)) : EC2Config :=
  ⟨"Asia/Ho_Chi_Minh", 60, 1, 30, "09:00", "18:00", full, metrics⟩

/-- `self.all_instances = {**self.full_control_instances, **self.metrics_only_instances}`. -/
def all_instances (cfg : EC2Config) : List (String × String) :=
  dictMerge cfg.full_control_instances cfg.metrics_only_instances

/-- `EC2Manager.is_full_control` (ec2.py lines 87-93): the argument is a
full-control instance either as a friendly name (dict key) or as an id (dict value). -/
def is_full_control (cfg : EC2Config) (instance_id : String) : Bool :=
  (dictLookup cfg.full_control_instances instance_id).isSome ||
    cfg.full_control_instances.any (fun p => p.2 == instance_id)

/-- `EC2Manager.get_instance_name` (ec2.py lines 95-100). -/
def get_instance_name (cfg : EC2Config) (instance_id : String) : String :=
  match (all_instances cfg).find? (fun p => p.2 == instance_id) with
  | some p => p.1
  | none => instance_id

/-- The name-to-id resolution step at the top of `start_instance`/`stop_instance`:
`if instance_id in self.all_instances: instance_id = self.all_instances[instance_id]`. -/
def resolve_instance (cfg : EC2Config) (instance_id : String) : String :=
  match dictLookup (all_instances cfg) instance_id with
  | some v => v
  | none => instance_id

/-- Result of `start_instance`/`stop_instance`: the `(bool, message)` pair the
source returns, plus an observation flag recording whether the external
`start_instances`/`stop_instances` API call was issued. -/
structure ActionResult where
  ok : Bool
  msg : String
  externalCall : Bool
deriving DecidableEq, Repr

/-- `EC2Manager.start_instance` (ec2.py lines 138-154).  The external call is
modelled as returning its fire-and-forget acknowledgement. -/
def start_instance (cfg : EC2Config) (instance_id : String) : ActionResult :=
  let iid := resolve_instance cfg instance_id
  if !(is_full_control cfg iid) then
    ⟨false, "Không có quyền start instance này", false⟩
  else
    ⟨true, "Đang khởi động EC2 instance: " ++ get_instance_name cfg iid, true⟩

/-- `EC2Manager.stop_instance` (ec2.py lines 156-172). -/
def stop_instance (cfg : EC2Config) (instance_id : String) : ActionResult :=
  let iid := resolve_instance cfg instance_id
  if !(is_full_control cfg iid) then
    ⟨false, "Không có quyền stop instance này", false⟩
  else
    ⟨true, "Đang tắt EC2 instance: " ++ get_instance_name cfg iid, true⟩

/-- An APScheduler cron job as registered by `add_schedule`. -/
structure Job where
  id : String
  hour : Int
  minute : Int
deriving DecidableEq, Repr

/-- The entry stored in `self.schedules[instance_id]` (ec2.py lines 332-339). -/
structure ScheduleRecord where
  server_name : String
  start_time : String
  stop_time : String
  timezone : String
  created_at : Nat
  expires_at : Nat
deriving DecidableEq, Repr

/-- The mutable state of `EC2Manager` touched by the schedule operations:
the `self.schedules` dict and the APScheduler job store. -/
structure SchedState where
  schedules : List (String × ScheduleRecord)
  jobs : List Job
deriving DecidableEq, Repr

/-- Whether the scheduler holds a job with the given id. -/
def hasJob (jobs : List Job) (job_id : String) : Bool :=
  jobs.any (fun j => j.id == job_id)

/-- `scheduler.remove_job(job_id)`: `none` models the `JobLookupError` raised
when no job with that id exists. -/
def remove_job (jobs : List Job) (job_id : String) : Option (List Job) :=
  if hasJob jobs job_id then some (jobs.filter (fun j => j.id != job_id)) else none

/-- `scheduler.add_job(..., id=job_id, replace_existing=True)`: any job with the
same id is replaced. -/
def add_job (jobs : List Job) (job_id : String) (hour minute : Int) : List Job :=
  jobs.filter (fun j => j.id != job_id) ++ [⟨job_id, hour, minute⟩]

/-- Number of active start-triggers for a resource. -/
def startTriggers (jobs : List Job) (instance_id : String) : Nat :=
  (jobs.filter (fun j => j.id == "start_" ++ instance_id)).length

/-- Number of active stop-triggers for a resource. -/
def stopTriggers (jobs : List Job) (instance_id : String) : Nat :=
  (jobs.filter (fun j => j.id == "stop_" ++ instance_id)).length

/-- "Instance không tồn tại" (ec2.py line 260). -/
def msgNotFound : String := "Instance không tồn tại"

/-- The schedule-limit message of ec2.py line 265. -/
def msgLimit (n : Nat) : String :=
  "Đã đạt giới hạn " ++ toString n ++ " schedule cho mỗi instance"

/-- Invalid start-time range message (ec2.py line 276). -/
def msgBadStart : String := "Giờ bật không hợp lệ. Giờ phải từ 00-23, phút phải từ 00-59"

/-- Invalid stop-time range message (ec2.py line 279). -/
def msgBadStop : String := "Giờ tắt không hợp lệ. Giờ phải từ 00-23, phút phải từ 00-59"

/-- Stop-before-start message (ec2.py line 289). -/
def msgBadRange : String := "Giờ tắt phải sau giờ bật"

/-- The `except ValueError` message (ec2.py line 293). -/
def msgBadFormat : String := "Format thởi gian không hợp lệ. Sử dụng HH:MM"

/-- Success message of `add_schedule` (ec2.py line 342). -/
def msgScheduleSet (server_name : String) : String :=
  "Schedule đã được thiết lập cho instance " ++ server_name

/-- The catch-all `except Exception` message of `add_schedule` (ec2.py line 346). -/
def msgSetError (e : String) : String := "Lỗi khi thiết lập schedule: " ++ e

/-- APScheduler's `JobLookupError` text for a missing job id. -/
def jobLookupError (job_id : String) : String :=
  "No job by the id of " ++ job_id ++ " was found"

/-- Result of `add_schedule`: the `(bool, message)` pair, the resulting manager
state, and the successive values taken by the scheduler's job store during the
call (initial value included), used to observe trigger replacement. -/
structure AddResult where
  ok : Bool
  msg : String
  state : SchedState
  jobTrace : List (List Job)
deriving DecidableEq, Repr

/-- `EC2Manager.add_schedule` (ec2.py lines 245-346).  `aws_instances` is the
set of instance ids the external `describe_instances` call reports as existing;
`now` is the abstract current day used for `created_at`/`expires_at`. -/
def add_schedule (cfg : EC2Config) (aws_instances : List String) (now : Nat)
    (st : SchedState) (instance_id server_name : String)
    (start_in stop_in : Option String) : AddResult :=
  -- Use default times if not provided (Python truthiness: None and "" default)
  let start_time := orDefault start_in cfg.default_start_time
  let stop_time := orDefault stop_in cfg.default_stop_time
  -- Validate instance
  if !(aws_instances.contains instance_id) then
    ⟨false, msgNotFound, st, [st.jobs]⟩
  -- Check schedule limit (note: total count across all resources)
  else if st.schedules.length ≥ cfg.max_schedules_per_instance then
    ⟨false, msgLimit cfg.max_schedules_per_instance, st, [st.jobs]⟩
  else
    -- Parse times (ValueError from either parse lands in the except branch)
    match parseHM start_time, parseHM stop_time with
    | some (start_hour, start_minute), some (stop_hour, stop_minute) =>
      if ¬ (0 ≤ start_hour ∧ start_hour ≤ 23 ∧ 0 ≤ start_minute ∧ start_minute ≤ 59) then
        ⟨false, msgBadStart, st, [st.jobs]⟩
      else if ¬ (0 ≤ stop_hour ∧ stop_hour ≤ 23 ∧ 0 ≤ stop_minute ∧ stop_minute ≤ 59) then
        ⟨false, msgBadStop, st, [st.jobs]⟩
      else if stop_hour * 60 + stop_minute ≤ start_hour * 60 + start_minute then
        ⟨false, msgBadRange, st, [st.jobs]⟩
      else
        -- Calculate expiration
        let expires := now + cfg.schedule_retention_days
        let record : ScheduleRecord :=
          ⟨server_name, start_time, stop_time, cfg.timezone, now, expires⟩
        -- Remove existing schedule if any (a JobLookupError here is caught by
        -- the outer except, leaving any partial mutation in place)
        if (dictLookup st.schedules instance_id).isSome then
          match remove_job st.jobs ("start_" ++ instance_id) with
          | none =>
            ⟨false, msgSetError (jobLookupError ("start_" ++ instance_id)), st, [st.jobs]⟩
          | some jobs1 =>
            match remove_job jobs1 ("stop_" ++ instance_id) with
            | none =>
              ⟨false, msgSetError (jobLookupError ("stop_" ++ instance_id)),
                ⟨st.schedules, jobs1⟩, [st.jobs, jobs1]⟩
            | some jobs2 =>
              let jobs3 := add_job jobs2 ("start_" ++ instance_id) start_hour start_minute
              let jobs4 := add_job jobs3 ("stop_" ++ instance_id) stop_hour stop_minute
              ⟨true, msgScheduleSet server_name,
                ⟨dictInsert st.schedules instance_id record, jobs4⟩,
                [st.jobs, jobs1, jobs2, jobs3, jobs4]⟩
        else
          let jobs3 := add_job st.jobs ("start_" ++ instance_id) start_hour start_minute
          let jobs4 := add_job jobs3 ("stop_" ++ instance_id) stop_hour stop_minute
          ⟨true, msgScheduleSet server_name,
            ⟨dictInsert st.schedules instance_id record, jobs4⟩,
            [st.jobs, jobs3, jobs4]⟩
    | _, _ => ⟨false, msgBadFormat, st, [st.jobs]⟩

/-- `EC2Manager.remove_schedule` (ec2.py lines 348-361).  A `JobLookupError`
from either `remove_job` call is caught by the `except` clause; mutations made
before the raise are kept. -/
def remove_schedule (st : SchedState) (instance_id : String) :
    (Bool × String) × SchedState :=
  if (dictLookup st.schedules instance_id).isNone then
    ((false, "Không tìm thấy schedule cho instance này"), st)
  else
    match remove_job st.jobs ("start_" ++ instance_id) with
    | none =>
      ((false, "Lỗi khi xóa schedule: " ++ jobLookupError ("start_" ++ instance_id)), st)
    | some jobs1 =>
      match remove_job jobs1 ("stop_" ++ instance_id) with
      | none =>
        ((false, "Lỗi khi xóa schedule: " ++ jobLookupError ("stop_" ++ instance_id)),
          ⟨st.schedules, jobs1⟩)
      | some jobs2 =>
        ((true, "Schedule đã được xóa"), ⟨dictErase st.schedules instance_id, jobs2⟩)

/-- `EC2Manager.get_schedule` (ec2.py lines 363-365). -/
def get_schedule (st : SchedState) (instance_id : String) : Option ScheduleRecord :=
  dictLookup st.schedules instance_id

/-- `EC2Manager.list_schedules` (ec2.py lines 367-369). -/
def list_schedules (st : SchedState) : List (String × ScheduleRecord) :=
  st.schedules

/-- `STATE_CHECK_INTERVAL` default from `src/config.py` line 66. -/
def STATE_CHECK_INTERVAL_default : Nat := 10

/-- `STATE_CHECK_TIMEOUT` default from `src/config.py` line 67. -/
def STATE_CHECK_TIMEOUT_default : Nat := 300

/-- Loop body of `EC2Manager.wait_for_state` (ec2.py lines 531-563).
`query n` is the result of the (n+1)-th `get_instance_state` call; the elapsed
seconds at iteration `n` are `5 * n`, since every continuing branch performs
`asyncio.sleep(5)`.  `sleeps` accumulates the sleep durations performed so far.
`fuel` only bounds the recursion; `wait_for_state` supplies more fuel than the
loop can consume, and the fuel-0 branch repeats the loop-exit timeout result. -/
def waitGo (query : Nat → Bool × String) (target_state : String) (timeout : Nat) :
    Nat → Nat → List Nat → (Bool × String) × List Nat
  | 0, _, sleeps => ((false, "Timeout khi chờ instance " ++ target_state), sleeps)
  | fuel + 1, n, sleeps =>
    if 5 * n < timeout then
      let (success, current_state) := query n
      if !success then
        ((false, "Lỗi khi kiểm tra trạng thái: " ++ current_state), sleeps)
      else if current_state == target_state then
        ((true, "Instance đã " ++ target_state), sleeps)
      else if target_state == "stopped" && current_state == "stopping" then
        waitGo query target_state timeout fuel (n + 1) (sleeps ++ [5])
      else if target_state == "running" && current_state == "pending" then
        waitGo query target_state timeout fuel (n + 1) (sleeps ++ [5])
      else if current_state == "terminated" || current_state == "shutting-down" then
        ((false, "Instance trong trạng thái không hợp lệ: " ++ current_state), sleeps)
      else if current_state == "stopping" || current_state == "pending" then
        waitGo query target_state timeout fuel (n + 1) (sleeps ++ [5])
      else
        waitGo query target_state timeout fuel (n + 1) (sleeps ++ [5])
    else
      ((false, "Timeout khi chờ instance " ++ target_state), sleeps)

/-- `EC2Manager.wait_for_state` (ec2.py lines 520-567), returning the
`(bool, message)` result together with the list of sleep durations performed. -/
def wait_for_state (query : Nat → Bool × String) (target_state : String)
    (timeout : Nat) : (Bool × String) × List Nat :=
  waitGo query target_state timeout (timeout + 1) 0 []

/-- First character of a string, used to tell the literal messages apart. -/
def headChar (s : String) : Option Char := s.data.head?

/-! Helper lemmas -/

theorem headChar_msgLimit (n : Nat) : headChar (msgLimit n) = some 'Đ' := rfl

theorem headChar_msgScheduleSet (s : String) : headChar (msgScheduleSet s) = some 'S' := rfl

theorem headChar_msgSetError (s : String) : headChar (msgSetError s) = some 'L' := rfl

theorem msgBadFormat_ne_limit (n : Nat) : msgBadFormat ≠ msgLimit n := by
  intro h
  have h2 := congrArg headChar h
  rw [headChar_msgLimit] at h2
  exact absurd h2 (by decide)

theorem msgBadStart_ne_limit (n : Nat) : msgBadStart ≠ msgLimit n := by
  intro h
  have h2 := congrArg headChar h
  rw [headChar_msgLimit] at h2
  exact absurd h2 (by decide)

theorem msgBadStop_ne_limit (n : Nat) : msgBadStop ≠ msgLimit n := by
  intro h
  have h2 := congrArg headChar h
  rw [headChar_msgLimit] at h2
  exact absurd h2 (by decide)

theorem msgBadRange_ne_limit (n : Nat) : msgBadRange ≠ msgLimit n := by
  intro h
  have h2 := congrArg headChar h
  rw [headChar_msgLimit] at h2
  exact absurd h2 (by decide)

theorem msgScheduleSet_ne_limit (s : String) (n : Nat) : msgScheduleSet s ≠ msgLimit n := by
  intro h
  have h2 := congrArg headChar h
  rw [headChar_msgLimit, headChar_msgScheduleSet] at h2
  exact absurd h2 (by decide)

theorem msgSetError_ne_limit (s : String) (n : Nat) : msgSetError s ≠ msgLimit n := by
  intro h
  have h2 := congrArg headChar h
  rw [headChar_msgLimit, headChar_msgSetError] at h2
  exact absurd h2 (by decide)

theorem start_ne_stop_id (s t : String) : "start_" ++ s ≠ "stop_" ++ t := by
  intro h
  have h2 : ("start_" ++ s).data = ("stop_" ++ t).data := congrArg String.data h
  simp [String.data] at h2

/-- If `s1 ≠ ""`, Python `s1 or d` is `s1` itself. -/
theorem orDefault_some_ne {s : String} (d : String) (h : s ≠ "") :
    orDefault (some s) d = s := by
  simp [orDefault, h]

theorem orDefault_some_empty (d : String) : orDefault (some "") d = orDefault none d := by
  simp [orDefault]

/-! C1 -/

/-- Configuration with a single metrics-only resource and no full-control ones,
as produced by `_load_config` with `EC2_METRICS_ONLY_INSTANCES='db-1:i-0db1'`. -/
def cfgMetricsOnly : EC2Config := load_config_defaults [] [("db-1", "i-0db1")]

/-- C1 counterexample: for the metrics-only resource `db-1`, `start_instance`
does NOT issue the external start call; it returns the permission-denied
failure, so Start is permission-gated exactly like Stop, contradicting the
claim that `performAction(resourceId, Start)` succeeds regardless of
`permissionLevel`. -/
theorem C1_counterexample :
    start_instance cfgMetricsOnly "db-1" =
      ⟨false, "Không có quyền start instance này", false⟩ ∧
    (start_instance cfgMetricsOnly "db-1").externalCall = false := by decide

/-- C1 (amended): both actions are permission-gated identically — each of
`start_instance` and `stop_instance` issues its external call exactly when the
resolved resource is full-control, and otherwise returns the corresponding
permission-denied failure without issuing the call. -/
theorem C1_both_actions_gated (cfg : EC2Config) (instance_id : String) :
    ((start_instance cfg instance_id).externalCall =
        is_full_control cfg (resolve_instance cfg instance_id)) ∧
    ((stop_instance cfg instance_id).externalCall =
        is_full_control cfg (resolve_instance cfg instance_id)) ∧
    (is_full_control cfg (resolve_instance cfg instance_id) = false →
      start_instance cfg instance_id =
        ⟨false, "Không có quyền start instance này", false⟩ ∧
      stop_instance cfg instance_id =
        ⟨false, "Không có quyền stop instance này", false⟩) := by
  unfold start_instance stop_instance
  by_cases h : is_full_control cfg (resolve_instance cfg instance_id) <;> simp [h]

/-- C1 witness: the amended theorem applied to the concrete metrics-only
configuration. -/
theorem C1_both_actions_gated_witness :
    start_instance cfgMetricsOnly "db-1" =
      ⟨false, "Không có quyền start instance này", false⟩ ∧
    stop_instance cfgMetricsOnly "db-1" =
      ⟨false, "Không có quyền stop instance này", false⟩ :=
  (C1_both_actions_gated cfgMetricsOnly "db-1").2.2 (by decide)

/-! C7 -/

/-- C7: if the very first status query already reports the target state (and the
timeout is positive so the loop body runs at all), `wait_for_state` returns the
success result having performed zero sleeps. -/
theorem C7_first_poll_reached (query : Nat → Bool × String) (target_state : String)
    (timeout : Nat) (hq : query 0 = (true, target_state)) (ht : 0 < timeout) :
    wait_for_state query target_state timeout =
      ((true, "Instance đã " ++ target_state), []) := by
  unfold wait_for_state waitGo
  rw [hq]
  simp [ht]

/-- C7 witness: a query whose first answer is already `running`. -/
theorem C7_first_poll_reached_witness :
    wait_for_state (fun _ => (true, "running")) "running" 300 =
      ((true, "Instance đã running"), []) :=
  C7_first_poll_reached (fun _ => (true, "running")) "running" 300 rfl (by decide)

/-! C8 -/

/-- C8 counterexample: with `target_state = "terminated"`, a query reporting
`terminated` makes the poller return the success (REACHED) result, not the
INVALID one — the equality-with-target check runs before the terminal-invalid
check, so the claim's "regardless of the requested target state" fails. -/
theorem C8_counterexample :
    wait_for_state (fun _ => (true, "terminated")) "terminated" 300 =
      ((true, "Instance đã terminated"), []) ∧
    ((true, "Instance đã terminated") : Bool × String) ≠
      (false, "Instance trong trạng thái không hợp lệ: terminated") := by decide

/-- C8 (amended): whenever a status query inside the polling loop reports
`terminated` or `shutting-down` and that state differs from the requested
target, the loop terminates immediately with the invalid-state failure and
performs no further sleep (the accumulated sleep list is returned unchanged). -/
theorem C8_terminal_invalid (query : Nat → Bool × String) (target_state s : String)
    (timeout fuel n : Nat) (sleeps : List Nat)
    (hq : query n = (true, s))
    (hs : s = "terminated" ∨ s = "shutting-down")
    (hne : s ≠ target_state)
    (hin : 5 * n < timeout) :
    waitGo query target_state timeout (fuel + 1) n sleeps =
      ((false, "Instance trong trạng thái không hợp lệ: " ++ s), sleeps) := by
  unfold waitGo
  rw [hq]
  rcases hs with rfl | rfl <;> simp [hin, hne]

/-- C8 witness: the amended theorem applied to a query that reports
`shutting-down` while waiting for `running`. -/
theorem C8_terminal_invalid_witness :
    waitGo (fun _ => (true, "shutting-down")) "running" 300 301 0 [] =
      ((false, "Instance trong trạng thái không hợp lệ: shutting-down"), []) :=
  C8_terminal_invalid (fun _ => (true, "shutting-down")) "running" "shutting-down"
    300 300 0 [] rfl (Or.inr rfl) (by decide) (by decide)

/-! C4 -/

/-- C4 counterexample: a single transitional poll (`pending` while waiting for
`running`) makes `wait_for_state` sleep exactly 5 seconds, not the configured
`STATE_CHECK_INTERVAL` default of 10 seconds: the 5-second interval is
hard-coded in `EC2Manager.wait_for_state`. -/
theorem C4_counterexample :
    wait_for_state (fun n => if n == 0 then (true, "pending") else (true, "running"))
        "running" 300 =
      ((true, "Instance đã running"), [5]) ∧
    ([5] : List Nat) ≠ [STATE_CHECK_INTERVAL_default] := by decide

/-- C4 (amended): between successive status queries, whenever the queried state
is transitional (or unrecognised and treated as transitional), the polling loop
sleeps a hard-coded 5 seconds — not `STATE_CHECK_INTERVAL` — before the next
query. -/
theorem C4_transitional_sleeps_five (query : Nat → Bool × String)
    (target_state s : String) (timeout fuel n : Nat) (sleeps : List Nat)
    (hq : query n = (true, s)) (hne : s ≠ target_state)
    (hterm : s ≠ "terminated") (hshut : s ≠ "shutting-down")
    (hin : 5 * n < timeout) :
    waitGo query target_state timeout (fuel + 1) n sleeps =
      waitGo query target_state timeout fuel (n + 1) (sleeps ++ [5]) := by
  have h1 : (s == target_state) = false := by simp [hne]
  have h2 : (s == "terminated") = false := by simp [hterm]
  have h3 : (s == "shutting-down") = false := by simp [hshut]
  conv_lhs => rw [waitGo]
  rw [hq]
  simp only [hin, if_true, Bool.not_true, Bool.false_eq_true, if_false, h1, h2, h3,
    Bool.false_or, Bool.or_false, Bool.and_false]
  split_ifs <;> rfl

/-- C4 witness: the amended theorem applied to a `pending` poll while waiting
for `running`. -/
theorem C4_transitional_sleeps_five_witness :
    waitGo (fun _ => (true, "pending")) "running" 300 301 0 [] =
      waitGo (fun _ => (true, "pending")) "running" 300 300 1 [5] :=
  C4_transitional_sleeps_five (fun _ => (true, "pending")) "running" "pending"
    300 300 0 [] rfl (by decide) (by decide) (by decide) (by decide)

/-! C9 -/

/-- C9: passing `""` as either time argument is identical to omitting it — the
truthiness-based defaulting (`start_time or self.default_start_time`)
substitutes the configured default, and the empty string is never rejected as a
malformed time. -/
theorem C9_empty_time_defaults (cfg : EC2Config) (aws_instances : List String)
    (now : Nat) (st : SchedState) (instance_id server_name : String) :
    (∀ stop_in,
      add_schedule cfg aws_instances now st instance_id server_name (some "") stop_in =
        add_schedule cfg aws_instances now st instance_id server_name none stop_in) ∧
    (∀ start_in,
      add_schedule cfg aws_instances now st instance_id server_name start_in (some "") =
        add_schedule cfg aws_instances now st instance_id server_name start_in none) ∧
    orDefault (some "") cfg.default_start_time = cfg.default_start_time ∧
    orDefault (some "") cfg.default_stop_time = cfg.default_stop_time := by
  refine ⟨fun stop_in => ?_, fun start_in => ?_, rfl, rfl⟩ <;>
    simp only [add_schedule, orDefault_some_empty]

/-! Scheduler job-store lemmas -/

theorem filterNe_filterEq_self (jobs : List Job) (a : String) :
    (jobs.filter (fun j => j.id != a)).filter (fun j => j.id == a) = [] := by
  induction jobs with
  | nil => rfl
  | cons j rest ih =>
    by_cases h : j.id = a <;> simp [List.filter_cons, h, ih]

theorem filterNe_filterEq_other (jobs : List Job) (a b : String) (hab : b ≠ a) :
    (jobs.filter (fun j => j.id != a)).filter (fun j => j.id == b) =
      jobs.filter (fun j => j.id == b) := by
  have hba : a ≠ b := Ne.symm hab
  induction jobs with
  | nil => rfl
  | cons j rest ih =>
    by_cases hb : j.id = b
    · have ha : j.id ≠ a := by rw [hb]; exact hab
      simp [List.filter_cons, hb, ha, ih, hab]
    · by_cases ha : j.id = a <;> simp [List.filter_cons, hb, ha, ih, hab, hba]

theorem hasJob_of_filter_pos (jobs : List Job) (x : String)
    (h : 0 < (jobs.filter (fun j => j.id == x)).length) : hasJob jobs x = true := by
  rcases List.exists_mem_of_length_pos h with ⟨j, hj⟩
  have hm := List.mem_filter.mp hj
  exact List.any_eq_true.mpr ⟨j, hm.1, hm.2⟩

theorem remove_job_of_hasJob (jobs : List Job) (x : String) (h : hasJob jobs x = true) :
    remove_job jobs x = some (jobs.filter (fun j => j.id != x)) := by
  simp [remove_job, h]

theorem hasJob_filter_other (jobs : List Job) (a b : String)
    (h : hasJob jobs b = true) (hab : b ≠ a) :
    hasJob (jobs.filter (fun j => j.id != a)) b = true := by
  rcases List.any_eq_true.mp h with ⟨j, hj, hjb⟩
  have hjb' : j.id = b := by simpa using hjb
  refine List.any_eq_true.mpr ⟨j, List.mem_filter.mpr ⟨hj, ?_⟩, hjb⟩
  simp [hjb', hab]

theorem filterEq_add_job_self (jobs : List Job) (a : String) (h m : Int) :
    (add_job jobs a h m).filter (fun j => j.id == a) = [⟨a, h, m⟩] := by
  unfold add_job
  rw [List.filter_append, filterNe_filterEq_self]
  simp

theorem filterEq_add_job_other (jobs : List Job) (a b : String) (h m : Int)
    (hab : b ≠ a) :
    (add_job jobs a h m).filter (fun j => j.id == b) =
      jobs.filter (fun j => j.id == b) := by
  unfold add_job
  rw [List.filter_append, filterNe_filterEq_other jobs a b hab]
  have hba : a ≠ b := Ne.symm hab
  simp [hba]

theorem dictLookup_dictInsert {α : Type} (l : List (String × α)) (k : String) (v : α) :
    dictLookup (dictInsert l k v) k = some v := by
  induction l with
  | nil => simp [dictInsert, dictLookup]
  | cons p rest ih =>
    by_cases h : p.1 = k
    · simp [dictInsert, dictLookup, h]
    · simpa [dictInsert, dictLookup, h] using ih

/-! C10 -/

/-- C10: if cancelling either cron trigger inside `remove_schedule` raises, the
call returns a failure and the schedule record is not deleted: the `schedules`
map is unchanged, so the record stays visible to `get_schedule` and
`list_schedules`.  (The map deletion in the source runs only after both
`remove_job` calls return.) -/
theorem C10_failed_cancel_keeps_record (st : SchedState) (instance_id : String)
    (r : ScheduleRecord) (hmem : dictLookup st.schedules instance_id = some r)
    (hfail : remove_job st.jobs ("start_" ++ instance_id) = none ∨
      ∃ jobs1, remove_job st.jobs ("start_" ++ instance_id) = some jobs1 ∧
        remove_job jobs1 ("stop_" ++ instance_id) = none) :
    (remove_schedule st instance_id).1.1 = false ∧
    (remove_schedule st instance_id).2.schedules = st.schedules ∧
    get_schedule (remove_schedule st instance_id).2 instance_id = some r ∧
    list_schedules (remove_schedule st instance_id).2 = st.schedules := by
  unfold remove_schedule
  rcases hfail with h1 | ⟨jobs1, h1, h2⟩ <;>
    simp [hmem, h1, get_schedule, list_schedules]
  rw [h2]
  simp [get_schedule, dictLookup] at hmem ⊢
  exact hmem

/-- A concrete stored schedule record used by the witnesses below. -/
def recW : ScheduleRecord := ⟨"web-1", "09:00", "18:00", "Asia/Ho_Chi_Minh", 0, 30⟩

/-- A state holding a schedule for `i-abc` whose cron jobs are missing from the
scheduler, so cancelling raises `JobLookupError`. -/
def stBroken : SchedState := ⟨[("i-abc", recW)], []⟩

/-- C10 witness: removing the schedule of `i-abc` while its start trigger is
missing fails and leaves the record in place. -/
theorem C10_failed_cancel_keeps_record_witness :
    (remove_schedule stBroken "i-abc").1.1 = false ∧
    (remove_schedule stBroken "i-abc").2.schedules = stBroken.schedules ∧
    get_schedule (remove_schedule stBroken "i-abc").2 "i-abc" = some recW ∧
    list_schedules (remove_schedule stBroken "i-abc").2 = stBroken.schedules :=
  C10_failed_cancel_keeps_record stBroken "i-abc" recW (by decide) (Or.inl (by decide))

/-! C5 -/

/-- C5: for a known resource, `add_schedule` fails with the
`ScheduleLimitExceeded` message exactly when the total number of stored
schedules across all resources is at least `max_schedules_per_instance` at call
time; the check precedes all time-string validation (the failure result below
holds for arbitrary, even malformed, time inputs) and leaves the state
unchanged. -/
theorem C5_global_cap_check (cfg : EC2Config) (aws_instances : List String) (now : Nat)
    (st : SchedState) (instance_id server_name : String) (start_in stop_in : Option String)
    (hex : aws_instances.contains instance_id = true) :
    (st.schedules.length ≥ cfg.max_schedules_per_instance →
      add_schedule cfg aws_instances now st instance_id server_name start_in stop_in =
        ⟨false, msgLimit cfg.max_schedules_per_instance, st, [st.jobs]⟩) ∧
    (st.schedules.length < cfg.max_schedules_per_instance →
      (add_schedule cfg aws_instances now st instance_id server_name start_in stop_in).msg ≠
        msgLimit cfg.max_schedules_per_instance) := by
  have hc : (!(aws_instances.contains instance_id)) = false := by rw [hex]; rfl
  constructor
  · intro hcap
    unfold add_schedule
    simp only [hc, Bool.false_eq_true, if_false]
    rw [if_pos hcap]
  · intro hcap
    unfold add_schedule
    simp only [hc, Bool.false_eq_true, if_false]
    rw [if_neg (show ¬ st.schedules.length ≥ cfg.max_schedules_per_instance from
      Nat.not_le.mpr hcap)]
    split
    · split_ifs <;>
        first
          | exact msgBadStart_ne_limit _
          | exact msgBadStop_ne_limit _
          | exact msgBadRange_ne_limit _
          | exact msgScheduleSet_ne_limit _ _
          | (split <;>
              first
                | exact msgSetError_ne_limit _ _
                | (split <;>
                    first
                      | exact msgSetError_ne_limit _ _
                      | exact msgScheduleSet_ne_limit _ _))
    · exact msgBadFormat_ne_limit _

/-- Configuration with the default scalar values (`max_schedules_per_instance = 1`)
and no configured instances; `add_schedule` does not consult the instance maps. -/
def cfgDefault : EC2Config := load_config_defaults [] []

/-- A consistent state holding the one allowed schedule, for `i-abc`, with its
cron trigger pair registered. -/
def stOne : SchedState :=
  ⟨[("i-abc", recW)], [⟨"start_" ++ "i-abc", 9, 0⟩, ⟨"stop_" ++ "i-abc", 18, 0⟩]⟩

/-- C5 witness: with the default cap of 1 and one stored schedule, a further
`add_schedule` call for a known instance fails with the limit message before
looking at its (here well-formed) time strings. -/
theorem C5_global_cap_check_witness :
    add_schedule cfgDefault ["i-xyz"] 0 stOne "i-xyz" "api-1" (some "10:00") (some "17:00") =
      ⟨false, msgLimit cfgDefault.max_schedules_per_instance, stOne, [stOne.jobs]⟩ :=
  (C5_global_cap_check cfgDefault ["i-xyz"] 0 stOne "i-xyz" "api-1"
    (some "10:00") (some "17:00") (by decide)).1 (by decide)

/-! C3 -/

/-- The empty manager state: no schedules, no cron jobs. -/
def stEmpty : SchedState := ⟨[], []⟩

/-- C3 counterexample: the single-digit time string `"9:5"` is NOT rejected —
Python's `int()` parses `"9"` and `"5"`, so `add_schedule` succeeds and stores
a schedule whose start time is literally `"9:5"`, contradicting the claim that
every malformed string (including single-digit forms) fails with
`InvalidTimeFormat` and stores nothing. -/
theorem C3_counterexample :
    (add_schedule cfgDefault ["i-abc"] 0 stEmpty "i-abc" "web-1"
        (some "9:5") (some "18:00")).ok = true ∧
    get_schedule (add_schedule cfgDefault ["i-abc"] 0 stEmpty "i-abc" "web-1"
        (some "9:5") (some "18:00")).state "i-abc" =
      some ⟨"web-1", "9:5", "18:00", "Asia/Ho_Chi_Minh", 0, 30⟩ := by decide

/-- C3 (amended): for non-empty time strings on a known resource under the cap,
a string that `int()` cannot parse (e.g. `"abc"`) fails with the
`InvalidTimeFormat` message and stores no schedule, and a parseable but
out-of-range value (e.g. `"25:00"`) fails with the corresponding hour/minute
range-validation message and stores no schedule; single-digit forms like
`"9:5"`, however, are accepted (see the counterexample). -/
theorem C3_time_validation (cfg : EC2Config) (aws_instances : List String) (now : Nat)
    (st : SchedState) (instance_id server_name : String) (s1 s2 : String)
    (hex : aws_instances.contains instance_id = true)
    (hcap : st.schedules.length < cfg.max_schedules_per_instance)
    (h1 : s1 ≠ "") (h2 : s2 ≠ "") :
    (parseHM s1 = none ∨ parseHM s2 = none →
      add_schedule cfg aws_instances now st instance_id server_name (some s1) (some s2) =
        ⟨false, msgBadFormat, st, [st.jobs]⟩) ∧
    (∀ sh sm eh em, parseHM s1 = some (sh, sm) → parseHM s2 = some (eh, em) →
      ¬ (0 ≤ sh ∧ sh ≤ 23 ∧ 0 ≤ sm ∧ sm ≤ 59) →
      add_schedule cfg aws_instances now st instance_id server_name (some s1) (some s2) =
        ⟨false, msgBadStart, st, [st.jobs]⟩) ∧
    (∀ sh sm eh em, parseHM s1 = some (sh, sm) → parseHM s2 = some (eh, em) →
      (0 ≤ sh ∧ sh ≤ 23 ∧ 0 ≤ sm ∧ sm ≤ 59) →
      ¬ (0 ≤ eh ∧ eh ≤ 23 ∧ 0 ≤ em ∧ em ≤ 59) →
      add_schedule cfg aws_instances now st instance_id server_name (some s1) (some s2) =
        ⟨false, msgBadStop, st, [st.jobs]⟩) := by
  have hc : (!(aws_instances.contains instance_id)) = false := by rw [hex]; rfl
  have hcap' := Nat.not_le.mpr hcap
  refine ⟨?_, ?_, ?_⟩
  · intro hp
    unfold add_schedule
    rw [orDefault_some_ne _ h1, orDefault_some_ne _ h2]
    simp only [hc, Bool.false_eq_true, if_false]
    rw [if_neg hcap']
    rcases hp with hp | hp
    · rcases hq : parseHM s2 with _ | ⟨⟨eh, em⟩⟩ <;> rw [hp]
    · rcases hq : parseHM s1 with _ | ⟨⟨sh, sm⟩⟩ <;> rw [hp]
  · intro sh sm eh em hp1 hp2 hr
    unfold add_schedule
    rw [orDefault_some_ne _ h1, orDefault_some_ne _ h2]
    simp only [hc, Bool.false_eq_true, if_false]
    rw [if_neg hcap', hp1, hp2]
    dsimp only
    rw [if_pos hr]
  · intro sh sm eh em hp1 hp2 hr1 hr2
    unfold add_schedule
    rw [orDefault_some_ne _ h1, orDefault_some_ne _ h2]
    simp only [hc, Bool.false_eq_true, if_false]
    rw [if_neg hcap', hp1, hp2]
    dsimp only
    rw [if_neg (not_not_intro hr1), if_pos hr2]

/-- C3 witness: the unparseable start time `"abc"` fails with the format
message and leaves the state unchanged. -/
theorem C3_time_validation_witness :
    add_schedule cfgDefault ["i-abc"] 0 stEmpty "i-abc" "web-1"
        (some "abc") (some "18:00") =
      ⟨false, msgBadFormat, stEmpty, [stEmpty.jobs]⟩ :=
  (C3_time_validation cfgDefault ["i-abc"] 0 stEmpty "i-abc" "web-1" "abc" "18:00"
    (by decide) (by decide) (by decide) (by decide)).1 (Or.inl (by decide))

/-! C6 -/

/-- C6: for any pair of time strings that parse to in-range hour/minute values
with the stop time strictly after the start time (in `hour*60+minute` terms),
on a known resource with the cap not reached (and, if a schedule already
exists, its trigger pair actually registered so that cancellation succeeds),
`add_schedule` succeeds and `get_schedule` returns a record holding exactly
those time strings and the configured timezone. -/
theorem C6_valid_schedule (cfg : EC2Config) (aws_instances : List String) (now : Nat)
    (st : SchedState) (instance_id server_name s1 s2 : String) (sh sm eh em : Int)
    (hex : aws_instances.contains instance_id = true)
    (hcap : st.schedules.length < cfg.max_schedules_per_instance)
    (hp1 : parseHM s1 = some (sh, sm)) (hr1 : 0 ≤ sh ∧ sh ≤ 23 ∧ 0 ≤ sm ∧ sm ≤ 59)
    (hp2 : parseHM s2 = some (eh, em)) (hr2 : 0 ≤ eh ∧ eh ≤ 23 ∧ 0 ≤ em ∧ em ≤ 59)
    (hlt : sh * 60 + sm < eh * 60 + em)
    (hw : (dictLookup st.schedules instance_id).isSome = true →
      hasJob st.jobs ("start_" ++ instance_id) = true ∧
      hasJob st.jobs ("stop_" ++ instance_id) = true) :
    (add_schedule cfg aws_instances now st instance_id server_name
        (some s1) (some s2)).ok = true ∧
    get_schedule (add_schedule cfg aws_instances now st instance_id server_name
        (some s1) (some s2)).state instance_id =
      some ⟨server_name, s1, s2, cfg.timezone, now, now + cfg.schedule_retention_days⟩ := by
  have hemp : parseHM "" = none := by decide
  have h1 : s1 ≠ "" := by intro h; rw [h, hemp] at hp1; exact Option.noConfusion hp1
  have h2 : s2 ≠ "" := by intro h; rw [h, hemp] at hp2; exact Option.noConfusion hp2
  have hc : (!(aws_instances.contains instance_id)) = false := by rw [hex]; rfl
  have hcap' := Nat.not_le.mpr hcap
  unfold add_schedule
  rw [orDefault_some_ne _ h1, orDefault_some_ne _ h2]
  simp only [hc, Bool.false_eq_true, if_false]
  rw [if_neg hcap', hp1, hp2]
  dsimp only
  rw [if_neg (not_not_intro hr1), if_neg (not_not_intro hr2),
    if_neg (not_le.mpr hlt)]
  by_cases hmem : (dictLookup st.schedules instance_id).isSome = true
  · obtain ⟨hjs, hjt⟩ := hw hmem
    rw [if_pos hmem, remove_job_of_hasJob _ _ hjs]
    dsimp only
    rw [remove_job_of_hasJob _ _
      (hasJob_filter_other st.jobs ("start_" ++ instance_id) ("stop_" ++ instance_id)
        hjt (Ne.symm (start_ne_stop_id instance_id instance_id)))]
    exact ⟨rfl, dictLookup_dictInsert _ _ _⟩
  · rw [if_neg hmem]
    exact ⟨rfl, dictLookup_dictInsert _ _ _⟩

/-- C6 witness: a fresh `09:00`/`18:00` schedule for `i-abc` succeeds and is
returned verbatim by `get_schedule`. -/
theorem C6_valid_schedule_witness :
    (add_schedule cfgDefault ["i-abc"] 0 stEmpty "i-abc" "web-1"
        (some "09:00") (some "18:00")).ok = true ∧
    get_schedule (add_schedule cfgDefault ["i-abc"] 0 stEmpty "i-abc" "web-1"
        (some "09:00") (some "18:00")).state "i-abc" =
      some ⟨"web-1", "09:00", "18:00", "Asia/Ho_Chi_Minh", 0, 30⟩ :=
  C6_valid_schedule cfgDefault ["i-abc"] 0 stEmpty "i-abc" "web-1" "09:00" "18:00"
    9 0 18 0 (by decide) (by decide) (by decide) (by decide) (by decide) (by decide)
    (by decide) (by decide)

/-! C2 -/

/-- C2 counterexample: with the default configuration
(`MAX_SCHEDULES_PER_INSTANCE = 1`) and one stored schedule for `i-abc`,
calling `add_schedule` again for that same resource with fresh valid times
does NOT succeed: the global-count cap check (which runs before the
replacement logic) fails with the limit message, and the old schedule stays in
place — so setting a second schedule for an already-scheduled resource is not
unconditionally a successful replacement. -/
theorem C2_counterexample :
    (add_schedule cfgDefault ["i-abc"] 0 stOne "i-abc" "web-1"
        (some "08:00") (some "19:00")).ok = false ∧
    (add_schedule cfgDefault ["i-abc"] 0 stOne "i-abc" "web-1"
        (some "08:00") (some "19:00")).msg = msgLimit 1 ∧
    (add_schedule cfgDefault ["i-abc"] 0 stOne "i-abc" "web-1"
        (some "08:00") (some "19:00")).state = stOne := by decide

/-- C2 (amended): provided the global-count cap check passes
(`len(schedules) < MAX_SCHEDULES_PER_INSTANCE` at call time, which with the
default cap of 1 never holds for a resource that already has a schedule),
re-scheduling a resource whose trigger pair is registered succeeds by
replacement: the old start/stop triggers are cancelled, the new ones
installed, afterwards exactly one active start-trigger and one active
stop-trigger exist for the resource, and no intermediate scheduler state ever
holds more than one start-trigger or more than one stop-trigger for it. -/
theorem C2_schedule_replacement (cfg : EC2Config) (aws_instances : List String) (now : Nat)
    (st : SchedState) (instance_id server_name s1 s2 : String) (sh sm eh em : Int)
    (hex : aws_instances.contains instance_id = true)
    (hcap : st.schedules.length < cfg.max_schedules_per_instance)
    (hp1 : parseHM s1 = some (sh, sm)) (hr1 : 0 ≤ sh ∧ sh ≤ 23 ∧ 0 ≤ sm ∧ sm ≤ 59)
    (hp2 : parseHM s2 = some (eh, em)) (hr2 : 0 ≤ eh ∧ eh ≤ 23 ∧ 0 ≤ em ∧ em ≤ 59)
    (hlt : sh * 60 + sm < eh * 60 + em)
    (hmem : (dictLookup st.schedules instance_id).isSome = true)
    (hst : startTriggers st.jobs instance_id = 1)
    (hsp : stopTriggers st.jobs instance_id = 1) :
    (add_schedule cfg aws_instances now st instance_id server_name
        (some s1) (some s2)).ok = true ∧
    startTriggers (add_schedule cfg aws_instances now st instance_id server_name
        (some s1) (some s2)).state.jobs instance_id = 1 ∧
    stopTriggers (add_schedule cfg aws_instances now st instance_id server_name
        (some s1) (some s2)).state.jobs instance_id = 1 ∧
    ∀ js ∈ (add_schedule cfg aws_instances now st instance_id server_name
        (some s1) (some s2)).jobTrace,
      startTriggers js instance_id ≤ 1 ∧ stopTriggers js instance_id ≤ 1 := by
  have hemp : parseHM "" = none := by decide
  have h1 : s1 ≠ "" := by intro h; rw [h, hemp] at hp1; exact Option.noConfusion hp1
  have h2 : s2 ≠ "" := by intro h; rw [h, hemp] at hp2; exact Option.noConfusion hp2
  have hc : (!(aws_instances.contains instance_id)) = false := by rw [hex]; rfl
  have hcap' := Nat.not_le.mpr hcap
  have hab : ("start_" ++ instance_id) ≠ ("stop_" ++ instance_id) :=
    start_ne_stop_id instance_id instance_id
  have hba := Ne.symm hab
  have hjs : hasJob st.jobs ("start_" ++ instance_id) = true := by
    apply hasJob_of_filter_pos
    have h := hst
    unfold startTriggers at h
    omega
  have hjt : hasJob st.jobs ("stop_" ++ instance_id) = true := by
    apply hasJob_of_filter_pos
    have h := hsp
    unfold stopTriggers at h
    omega
  have c1s : startTriggers (st.jobs.filter
      (fun j => j.id != "start_" ++ instance_id)) instance_id = 0 := by
    unfold startTriggers
    rw [filterNe_filterEq_self]
    rfl
  have c1t : stopTriggers (st.jobs.filter
      (fun j => j.id != "start_" ++ instance_id)) instance_id = 1 := by
    unfold stopTriggers
    rw [filterNe_filterEq_other st.jobs _ _ hba]
    exact hsp
  have c2s : startTriggers ((st.jobs.filter
      (fun j => j.id != "start_" ++ instance_id)).filter
      (fun j => j.id != "stop_" ++ instance_id)) instance_id = 0 := by
    unfold startTriggers
    rw [filterNe_filterEq_other _ _ _ hab]
    exact c1s
  have c2t : stopTriggers ((st.jobs.filter
      (fun j => j.id != "start_" ++ instance_id)).filter
      (fun j => j.id != "stop_" ++ instance_id)) instance_id = 0 := by
    unfold stopTriggers
    rw [filterNe_filterEq_self]
    rfl
  have c3s : ∀ jobs2 : List Job, startTriggers
      (add_job jobs2 ("start_" ++ instance_id) sh sm) instance_id = 1 := by
    intro jobs2
    unfold startTriggers
    rw [filterEq_add_job_self]
    rfl
  have c3t : ∀ jobs2 : List Job, stopTriggers
      (add_job jobs2 ("start_" ++ instance_id) sh sm) instance_id =
        stopTriggers jobs2 instance_id := by
    intro jobs2
    unfold stopTriggers
    rw [filterEq_add_job_other _ _ _ _ _ hba]
  have c4s : ∀ jobs3 : List Job, startTriggers
      (add_job jobs3 ("stop_" ++ instance_id) eh em) instance_id =
        startTriggers jobs3 instance_id := by
    intro jobs3
    unfold startTriggers
    rw [filterEq_add_job_other _ _ _ _ _ hab]
  have c4t : ∀ jobs3 : List Job, stopTriggers
      (add_job jobs3 ("stop_" ++ instance_id) eh em) instance_id = 1 := by
    intro jobs3
    unfold stopTriggers
    rw [filterEq_add_job_self]
    rfl
  unfold add_schedule
  rw [orDefault_some_ne _ h1, orDefault_some_ne _ h2]
  simp only [hc, Bool.false_eq_true, if_false]
  rw [if_neg hcap', hp1, hp2]
  dsimp only
  rw [if_neg (not_not_intro hr1), if_neg (not_not_intro hr2),
    if_neg (not_le.mpr hlt), if_pos hmem, remove_job_of_hasJob _ _ hjs]
  dsimp only
  rw [remove_job_of_hasJob _ _
    (hasJob_filter_other st.jobs ("start_" ++ instance_id) ("stop_" ++ instance_id)
      hjt hba)]
  refine ⟨rfl, ?_, ?_, ?_⟩
  · rw [c4s, c3s]
  · rw [c4t]
  · intro js hjmem
    simp only [List.mem_cons, List.not_mem_nil, or_false] at hjmem
    rcases hjmem with rfl | rfl | rfl | rfl | rfl
    · exact ⟨by omega, by omega⟩
    · exact ⟨by rw [c1s]; omega, by rw [c1t]⟩
    · exact ⟨by rw [c2s]; omega, by rw [c2t]; omega⟩
    · exact ⟨by rw [c3s], by rw [c3t, c2t]; omega⟩
    · exact ⟨by rw [c4s, c3s], by rw [c4t]⟩

/-- Configuration as loaded with `MAX_SCHEDULES_PER_INSTANCE=2` and the other
scalar environment variables unset, so the global cap check can pass while a
schedule is already stored. -/
def cfgCapTwo : EC2Config :=
  ⟨"Asia/Ho_Chi_Minh", 60, 2, 30, "09:00", "18:00", [], []⟩

/-- C2 witness: with the cap raised to 2, re-scheduling `i-abc` replaces its
trigger pair, with exactly one start- and one stop-trigger afterwards and at
most one of each at every intermediate point. -/
theorem C2_schedule_replacement_witness :
    (add_schedule cfgCapTwo ["i-abc"] 0 stOne "i-abc" "web-1"
        (some "08:00") (some "19:00")).ok = true ∧
    startTriggers (add_schedule cfgCapTwo ["i-abc"] 0 stOne "i-abc" "web-1"
        (some "08:00") (some "19:00")).state.jobs "i-abc" = 1 ∧
    stopTriggers (add_schedule cfgCapTwo ["i-abc"] 0 stOne "i-abc" "web-1"
        (some "08:00") (some "19:00")).state.jobs "i-abc" = 1 ∧
    ∀ js ∈ (add_schedule cfgCapTwo ["i-abc"] 0 stOne "i-abc" "web-1"
        (some "08:00") (some "19:00")).jobTrace,
      startTriggers js "i-abc" ≤ 1 ∧ stopTriggers js "i-abc" ≤ 1 :=
  C2_schedule_replacement cfgCapTwo ["i-abc"] 0 stOne "i-abc" "web-1" "08:00" "19:00"
    8 0 19 0 (by decide) (by decide) (by decide) (by decide) (by decide) (by decide)
    (by decide) (by decide) (by decide) (by decide)
